import Mathlib

/-!
Verification development for the ReX math typesetting core.

The definitions below are a shallow embedding of the parser-side code of the
repository: the static command table and the command handlers of
src/functions.rs, and the color-stack discipline of src/render/scene.rs.
Modules of the repository that are not part of the given sources (the lexer,
the parse engine primitives, the node/font/dimension declarations) are either
abstracted as explicit function parameters of the handlers, or modelled from
the specification; each such definition says so in its doc comment.
Rust f64 quantities that only ever hold exact fractions are embedded as Rat.
-/

set_option maxHeartbeats 1000000

namespace ReX

/-- AtomType, from src/functions.rs usage and the spec's data model (font.rs is
not among the given sources): classification driving spacing and style rules. -/
inductive AtomType where
  | Ordinal
  | Operator (limits : Bool)
  | Binary
  | Relation
  | Open
  | Close
  | Punctuation
  | Inner
  | Accent
  | Alpha
  deriving DecidableEq, Repr

/-- Symbol, a leaf math atom: codepoint plus AtomType (spec data model;
symbols.rs is not among the given sources). -/
structure Symbol where
  codepoint : Char
  atom_type : AtomType
  deriving DecidableEq, Repr

/-- Modelled from the spec: a measurement tagged with its unit, font-relative
em or an absolute unit (dimensions.rs is not among the given sources; only the
Em variant is exercised by src/functions.rs). -/
inductive Unit where
  | Em (amount : Rat)
  | Px (amount : Rat)
  deriving DecidableEq, Repr

/-- RGBA color, from src/parser/color.rs usage: four u8 channels, embedded as
Nat. -/
structure RGBA where
  r : Nat
  g : Nat
  b : Nat
  a : Nat
  deriving DecidableEq, Repr

/-- Modelled from the spec: fraction bar thickness is the font default, an
explicit thickness, or zero/invisible (nodes.rs is not among the given
sources; src/functions.rs uses the Default and None variants). -/
inductive BarThickness where
  | Default
  | None
  | Unit (u : Unit)
  deriving DecidableEq, Repr

/-- Modelled from the spec: the optional layout-style override carried on a
GenFraction node (nodes.rs is not among the given sources; src/functions.rs
uses NoChange, Text and Display). -/
inductive MathStyle where
  | NoChange
  | Text
  | Display
  deriving DecidableEq, Repr

/-- LayoutStyle, from src/functions.rs usage: Display, Text, Script,
ScriptScript (layout.rs is not among the given sources). -/
inductive LayoutStyle where
  | Display
  | Text
  | Script
  | ScriptScript
  deriving DecidableEq, Repr

/-- Modelled from the spec: text-style font family (font.rs is not among the
given sources; src/functions.rs uses Roman). -/
inductive Family where
  | Roman
  | Italic
  deriving DecidableEq, Repr

/-- Modelled from the spec: text-style font weight (font.rs is not among the
given sources; src/functions.rs uses None). -/
inductive Weight where
  | None
  | Bold
  deriving DecidableEq, Repr

/-- Modelled from the spec: the text style context tracks the current family
and weight (font.rs is not among the given sources). The default field values
are irrelevant to every use in src/functions.rs, which overrides both. -/
structure Style where
  family : Family := Family.Italic
  weight : Weight := Weight.None
  deriving DecidableEq, Repr

/-- Builder on the text style, from src/functions.rs usage of
Style::default().with_family(..). -/
def Style.with_family (s : Style) (f : Family) : Style := { s with family := f }

/-- Builder on the text style, from src/functions.rs usage of
..with_weight(..). -/
def Style.with_weight (s : Style) (w : Weight) : Style := { s with weight := w }

/-- ParseNode, the AST tagged union, from the spec data model and the
constructions in src/functions.rs (nodes.rs is not among the given sources).
The Scripts variant is omitted: no given code constructs it. -/
inductive ParseNode where
  | Symbol (sym : Symbol)
  | Radical (inner : List ParseNode)
  | GenFraction (left_delimiter : Option Symbol) (right_delimiter : Option Symbol)
      (bar_thickness : BarThickness) (numerator : List ParseNode)
      (denominator : List ParseNode) (style : MathStyle)
  | Rule (width : Unit) (height : Unit)
  | Kerning (u : Unit)
  | Style (s : LayoutStyle)
  | AtomChange (at_ : AtomType) (inner : List ParseNode)
  | Color (color : RGBA) (inner : List ParseNode)
  | Extend (codepoint : Char) (height : Unit)
  | Stack (atom_type : AtomType) (lines : List (List ParseNode))
  deriving Repr

/-- ParseError, from the variants used in src/functions.rs plus the error
kinds of the spec (error.rs is not among the given sources): the atom-class
mismatch raised by expect_type and the malformed-dimension error raised by the
lexer are modelled from the spec's error-kind list. -/
inductive ParseError where
  | ExpectedOpenGroup
  | StackMustFollowGroup
  | Todo
  | ExpectedAtomType (expected : AtomType) (found : AtomType)
  | UnrecognizedDimension
  deriving DecidableEq, Repr

/-- Command, from src/functions.rs: a parse-time descriptor pairing fixed
literal parameters with a handler. -/
inductive Command where
  | Radical
  | Rule
  | VExtend
  | Color
  | ColorLit (c : RGBA)
  | Fraction (left : Option Symbol) (right : Option Symbol)
      (bar : BarThickness) (style : MathStyle)
  | DelimiterSize (size : Nat) (at_ : AtomType)
  | Kerning (u : Unit)
  | Style (s : LayoutStyle)
  | AtomChange (at_ : AtomType)
  | TextOperator (text : String) (limits : Bool)
  | SubStack (at_ : AtomType)
  deriving DecidableEq, Repr

/-- get_command, from src/functions.rs lines 65-183: the static, case-sensitive
command table. The sym! macro invocations of the source are expanded inline. -/
def get_command (name : String) : Option Command :=
  match name with
  | "frac" => some (Command.Fraction none none BarThickness.Default MathStyle.NoChange)
  | "tfrac" => some (Command.Fraction none none BarThickness.Default MathStyle.Text)
  | "dfrac" => some (Command.Fraction none none BarThickness.Default MathStyle.Display)
  | "binom" => some (Command.Fraction
      (some ⟨'(', AtomType.Open⟩) (some ⟨')', AtomType.Close⟩)
      BarThickness.None MathStyle.NoChange)
  | "tbinom" => some (Command.Fraction
      (some ⟨'(', AtomType.Open⟩) (some ⟨')', AtomType.Close⟩)
      BarThickness.None MathStyle.Text)
  | "dbinom" => some (Command.Fraction
      (some ⟨'(', AtomType.Open⟩) (some ⟨')', AtomType.Close⟩)
      BarThickness.None MathStyle.Display)
  | "substack" => some (Command.SubStack AtomType.Inner)
  | "sqrt" => some Command.Radical
  | "bigl" => some (Command.DelimiterSize 1 AtomType.Open)
  | "Bigl" => some (Command.DelimiterSize 2 AtomType.Open)
  | "biggl" => some (Command.DelimiterSize 3 AtomType.Open)
  | "Biggl" => some (Command.DelimiterSize 4 AtomType.Open)
  | "bigr" => some (Command.DelimiterSize 1 AtomType.Close)
  | "Bigr" => some (Command.DelimiterSize 2 AtomType.Close)
  | "biggr" => some (Command.DelimiterSize 3 AtomType.Close)
  | "Biggr" => some (Command.DelimiterSize 4 AtomType.Close)
  | "bigm" => some (Command.DelimiterSize 1 AtomType.Relation)
  | "Bigm" => some (Command.DelimiterSize 2 AtomType.Relation)
  | "biggm" => some (Command.DelimiterSize 3 AtomType.Relation)
  | "Biggm" => some (Command.DelimiterSize 4 AtomType.Relation)
  | "big" => some (Command.DelimiterSize 1 AtomType.Ordinal)
  | "Big" => some (Command.DelimiterSize 2 AtomType.Ordinal)
  | "bigg" => some (Command.DelimiterSize 3 AtomType.Ordinal)
  | "Bigg" => some (Command.DelimiterSize 4 AtomType.Ordinal)
  | "!" => some (Command.Kerning (Unit.Em (-3/18)))
  | "," => some (Command.Kerning (Unit.Em (3/18)))
  | ":" => some (Command.Kerning (Unit.Em (4/18)))
  | ";" => some (Command.Kerning (Unit.Em (5/18)))
  | " " => some (Command.Kerning (Unit.Em (1/4)))
  | "quad" => some (Command.Kerning (Unit.Em 1))
  | "qquad" => some (Command.Kerning (Unit.Em 2))
  | "rule" => some Command.Rule
  | "vextend" => some Command.VExtend
  | "textstyle" => some (Command.Style LayoutStyle.Text)
  | "displaystyle" => some (Command.Style LayoutStyle.Display)
  | "scriptstyle" => some (Command.Style LayoutStyle.Script)
  | "scriptscriptstyle" => some (Command.Style LayoutStyle.ScriptScript)
  | "mathop" => some (Command.AtomChange (AtomType.Operator false))
  | "mathrel" => some (Command.AtomChange AtomType.Relation)
  | "mathord" => some (Command.AtomChange AtomType.Alpha)
  | "color" => some Command.Color
  | "blue" => some (Command.ColorLit ⟨0, 0, 0xff, 0xff⟩)
  | "red" => some (Command.ColorLit ⟨0xff, 0, 0, 0xff⟩)
  | "gray" => some (Command.ColorLit ⟨0x80, 0x80, 0x80, 0xff⟩)
  | "phantom" => some (Command.ColorLit ⟨0, 0, 0, 0⟩)
  | "det" => some (Command.TextOperator "det" true)
  | "gcd" => some (Command.TextOperator "gcd" true)
  | "lim" => some (Command.TextOperator "lim" true)
  | "limsup" => some (Command.TextOperator "lim,sup" true)
  | "liminf" => some (Command.TextOperator "lim,inf" true)
  | "sup" => some (Command.TextOperator "sup" true)
  | "supp" => some (Command.TextOperator "supp" true)
  | "inf" => some (Command.TextOperator "inf" true)
  | "max" => some (Command.TextOperator "max" true)
  | "min" => some (Command.TextOperator "min" true)
  | "Pr" => some (Command.TextOperator "Pr" true)
  | "sin" => some (Command.TextOperator "sin" false)
  | "cos" => some (Command.TextOperator "cos" false)
  | "tan" => some (Command.TextOperator "tan" false)
  | "cot" => some (Command.TextOperator "cot" false)
  | "csc" => some (Command.TextOperator "csc" false)
  | "sec" => some (Command.TextOperator "sec" false)
  | "arcsin" => some (Command.TextOperator "arcsin" false)
  | "arccos" => some (Command.TextOperator "arccos" false)
  | "arctan" => some (Command.TextOperator "arctan" false)
  | "sinh" => some (Command.TextOperator "sinh" false)
  | "cosh" => some (Command.TextOperator "cosh" false)
  | "tanh" => some (Command.TextOperator "tanh" false)
  | "arg" => some (Command.TextOperator "arg" false)
  | "deg" => some (Command.TextOperator "deg" false)
  | "dim" => some (Command.TextOperator "dim" false)
  | "exp" => some (Command.TextOperator "exp" false)
  | "hom" => some (Command.TextOperator "hom" false)
  | "Hom" => some (Command.TextOperator "Hom" false)
  | "ker" => some (Command.TextOperator "ker" false)
  | "Ker" => some (Command.TextOperator "Ker" false)
  | "ln" => some (Command.TextOperator "ln" false)
  | "log" => some (Command.TextOperator "log" false)
  | _ => none

/-- The exact list of names matched by get_command, in source order. -/
def commandNames : List String :=
  ["frac", "tfrac", "dfrac", "binom", "tbinom", "dbinom", "substack", "sqrt",
   "bigl", "Bigl", "biggl", "Biggl", "bigr", "Bigr", "biggr", "Biggr",
   "bigm", "Bigm", "biggm", "Biggm", "big", "Big", "bigg", "Bigg",
   "!", ",", ":", ";", " ", "quad", "qquad", "rule", "vextend",
   "textstyle", "displaystyle", "scriptstyle", "scriptscriptstyle",
   "mathop", "mathrel", "mathord", "color", "blue", "red", "gray", "phantom",
   "det", "gcd", "lim", "limsup", "liminf", "sup", "supp", "inf", "max",
   "min", "Pr", "sin", "cos", "tan", "cot", "csc", "sec", "arcsin", "arccos",
   "arctan", "sinh", "cosh", "tanh", "arg", "deg", "dim", "exp", "hom",
   "Hom", "ker", "Ker", "ln", "log"]

/-!
Command handlers from src/functions.rs. Each Rust handler threads an exclusive
lexer reference; the embedding threads an explicit state of abstract type σ.
The parse-engine primitives the handlers call (required_argument, expect_type,
expression, the lexer's dimension) live in modules that are not among the
given sources, so each handler takes the primitives it uses as explicit
function parameters; the source's unused local-style argument is absorbed into
those closures.
-/

/-- fraction, from src/functions.rs lines 226-245: read numerator then
denominator as two required arguments and build a GenFraction with the
command's literal delimiter/bar/style parameters. -/
def fraction {σ : Type} (required_argument : σ → Except ParseError (List ParseNode × σ))
    (left_delimiter right_delimiter : Option Symbol) (bar_thickness : BarThickness)
    (style : MathStyle) (s : σ) : Except ParseError (ParseNode × σ) :=
  match required_argument s with
  | Except.error e => Except.error e
  | Except.ok (numerator, s) =>
    match required_argument s with
    | Except.error e => Except.error e
    | Except.ok (denominator, s) =>
      Except.ok (ParseNode.GenFraction left_delimiter right_delimiter bar_thickness
        numerator denominator style, s)

/-- Modelled from the spec: expect_type parses one required symbol and fails
unless its resolved AtomType matches the requested class (the parse engine is
not among the given sources). The symbol-resolution step is the abstract
parameter next_symbol. -/
def expect_type {σ : Type} (next_symbol : σ → Except ParseError (Symbol × σ))
    (atom_type : AtomType) (s : σ) : Except ParseError (Symbol × σ) :=
  match next_symbol s with
  | Except.error e => Except.error e
  | Except.ok (sym, s) =>
    if sym.atom_type = atom_type then
      Except.ok (sym, s)
    else
      Except.error (ParseError.ExpectedAtomType atom_type sym.atom_type)

/-- delimiter_size, from src/functions.rs lines 247-255: read one symbol via
expect_type and return it as a Symbol node; the size argument is bound to the
wildcard pattern in the source and ignored. -/
def delimiter_size {σ : Type} (next_symbol : σ → Except ParseError (Symbol × σ))
    (_size : Nat) (atom_type : AtomType) (s : σ) : Except ParseError (ParseNode × σ) :=
  match expect_type next_symbol atom_type s with
  | Except.error e => Except.error e
  | Except.ok (symbol, s) => Except.ok (ParseNode.Symbol symbol, s)

/-- kerning, from src/functions.rs lines 257-259: ignore the lexer and return
a Kerning node carrying the command's literal unit. -/
def kerning {σ : Type} (unit : Unit) (s : σ) : Except ParseError (ParseNode × σ) :=
  Except.ok (ParseNode.Kerning unit, s)

/-- color_lit, from src/functions.rs lines 221-224: read one required argument
and wrap it in a Color node with the command's literal color. -/
def color_lit {σ : Type} (required_argument : σ → Except ParseError (List ParseNode × σ))
    (color : RGBA) (s : σ) : Except ParseError (ParseNode × σ) :=
  match required_argument s with
  | Except.error e => Except.error e
  | Except.ok (inner, s) => Except.ok (ParseNode.Color color inner, s)

/-- The 3/18 em SMALL_SKIP constant of text_operator
(src/functions.rs line 276). -/
def SMALL_SKIP : Unit := Unit.Em (3/18)

/-- One loop step of text_operator (src/functions.rs lines 280-294): a ','
pushes a Kerning of SMALL_SKIP, any other character pushes an Ordinal Symbol
whose codepoint is the character styled with the upright Roman family and no
weight. style_symbol lives in font.rs, which is not among the given sources,
so it is an abstract parameter. -/
def text_operator_step (style_symbol : Char → Style → Char) (c : Char) : ParseNode :=
  if c = ',' then
    ParseNode.Kerning SMALL_SKIP
  else
    ParseNode.Symbol
      ⟨style_symbol c (({} : Style).with_family Family.Roman |>.with_weight Weight.None),
       AtomType.Ordinal⟩

/-- text_operator, from src/functions.rs lines 270-297: ignore the lexer and
build an AtomChange forcing Operator(limits) around the run of nodes pushed,
one per character of the operator word, in order (the Vec push loop is
embedded as a foldl over the characters). -/
def text_operator {σ : Type} (style_symbol : Char → Style → Char) (text : String)
    (limits : Bool) (s : σ) : Except ParseError (ParseNode × σ) :=
  let at_ := AtomType.Operator limits
  let inner := text.toList.foldl (fun acc c => acc ++ [text_operator_step style_symbol c]) []
  Except.ok (ParseNode.AtomChange at_ inner, s)

/-!
The substack handler and the rule handler interact with the lexer token by
token, so for them the state is made concrete: a list of tokens (for
substack) or of characters (for rule's dimension lexing).
-/

/-- Token, from src/lexer.rs usage in src/functions.rs (the lexer is not among
the given sources): a literal symbol character, a command name, or
end-of-input. A list of tokens plays the role of the lexer state; its head is
the current token. -/
inductive Token where
  | Symbol (c : Char)
  | Command (name : String)
  | EOF
  deriving DecidableEq, Repr

/-- Modelled from the spec: expression parses a maximal sequence of atoms
until a terminator — closing brace, end of input, or row separator — and
returns the ordered list of nodes (the parse engine is not among the given
sources). This model covers the fragment substack needs: plain symbol atoms,
each becoming an Alpha Symbol node; every command token is a terminator here,
which is faithful for the row-separator command the substack loop inspects. -/
def expression : List Token → (List ParseNode × List Token)
  | [] => ([], [])
  | Token.EOF :: rest => ([], Token.EOF :: rest)
  | Token.Command name :: rest => ([], Token.Command name :: rest)
  | Token.Symbol c :: rest =>
    if c = '}' ∨ c = '{' then
      ([], Token.Symbol c :: rest)
    else
      let (nodes, rest') := expression rest
      (ParseNode.Symbol ⟨c, AtomType.Alpha⟩ :: nodes, rest')

/-- The row loop of substack (src/functions.rs lines 312-319): push one
expression per row; a '}' current token ends the loop, a row-separator
command advances to the next row, anything else is a hard error. The source
loop terminates because each continue consumes the separator token; the
embedding makes that explicit with a fuel argument that the wrapper sets
larger than the token count. -/
def substack_loop : Nat → List Token → List (List ParseNode) →
    Except ParseError (List (List ParseNode) × List Token)
  | 0, _, _ => Except.error ParseError.Todo
  | Nat.succ fuel, toks, lines =>
    let (row, rest) := expression toks
    let lines := lines ++ [row]
    match rest with
    | Token.Symbol '}' :: rest' => Except.ok (lines, rest')
    | Token.Command name :: rest' =>
      if name = "\\" then substack_loop fuel rest' lines
      else Except.error ParseError.Todo
    | _ => Except.error ParseError.Todo

/-- The trailing-row cleanup of substack (src/functions.rs lines 321-324):
remove the last row if it is empty. -/
def drop_trailing_empty_row (lines : List (List ParseNode)) : List (List ParseNode) :=
  if lines.getLast?.map List.isEmpty = some true then lines.dropLast else lines

/-- substack, from src/functions.rs lines 299-328: the current token must be a
literal opening group, then rows are parsed by the loop, then one trailing
empty row is removed if present, and a Stack node carrying the surviving rows
and the caller-specified AtomType is returned. -/
def substack (atom_type : AtomType) (toks : List Token) :
    Except ParseError (ParseNode × List Token) :=
  match toks with
  | Token.Symbol '{' :: rest =>
    match substack_loop (rest.length + 1) rest [] with
    | Except.error e => Except.error e
    | Except.ok (lines, rest') =>
      Except.ok (ParseNode.Stack atom_type (drop_trailing_empty_row lines), rest')
  | _ => Except.error ParseError.StackMustFollowGroup

/-- The two ways a handler run can end abnormally: a propagated ParseError, or
a Rust panic (the source's Option::expect with the quoted message). -/
inductive RunError where
  | Parse (e : ParseError)
  | Crash (msg : String)
  deriving DecidableEq, Repr

/-- rule, from src/functions.rs lines 190-200: skip whitespace, read a
dimension, skip whitespace, read a dimension, and return a Rule node. Each
dimension read first propagates a lexer error through the question-mark
operator, then unwraps the inner Option with expect, which panics when the
dimension site did not begin with a number. consume_whitespace and dimension
live in the lexer, which is not among the given sources, so they are abstract
parameters here. -/
def rule {σ : Type} (consume_whitespace : σ → σ)
    (dimension : σ → Except ParseError (Option Unit × σ)) (s : σ) :
    Except RunError (ParseNode × σ) :=
  let s := consume_whitespace s
  match dimension s with
  | Except.error e => Except.error (RunError.Parse e)
  | Except.ok (none, _) => Except.error (RunError.Crash "Unable to parse dimension for Rule.")
  | Except.ok (some width, s) =>
    let s := consume_whitespace s
    match dimension s with
    | Except.error e => Except.error (RunError.Parse e)
    | Except.ok (none, _) => Except.error (RunError.Crash "Unable to parse dimension for Rule.")
    | Except.ok (some height, s) => Except.ok (ParseNode.Rule width height, s)

/-- The longest digit prefix of a character list, and the remainder. -/
def digits_prefix : List Char → (List Char × List Char)
  | [] => ([], [])
  | c :: cs =>
    if c.isDigit then
      let (ds, rest) := digits_prefix cs
      (c :: ds, rest)
    else
      ([], c :: cs)

/-- The natural number denoted by a list of digit characters. -/
def nat_of_digits (ds : List Char) : Nat :=
  ds.foldl (fun acc c => 10 * acc + (c.toNat - 48)) 0

/-- Modelled from the spec: the lexer's dimension attempts a number-unit
literal, returning no match when the input does not begin with a number, and a
structural error when the number is followed by an unrecognized or missing
unit suffix (the lexer is not among the given sources). This concrete model
reads an unsigned integer and the suffixes em and px; it instantiates the
abstract dimension parameter of rule in the concrete theorems. -/
def lex_dimension (input : List Char) : Except ParseError (Option Unit × List Char) :=
  let (ds, rest) := digits_prefix input
  if ds.isEmpty then
    Except.ok (none, input)
  else
    match rest with
    | 'e' :: 'm' :: r => Except.ok (some (Unit.Em (nat_of_digits ds)), r)
    | 'p' :: 'x' :: r => Except.ok (some (Unit.Px (nat_of_digits ds)), r)
    | _ => Except.error ParseError.UnrecognizedDimension

/-- Modelled from the spec: consume_whitespace skips insignificant space (the
lexer is not among the given sources); concrete counterpart over characters. -/
def consume_ws (input : List Char) : List Char :=
  input.dropWhile (fun c => c = ' ')

/-!
Scene backend color discipline, from src/render/scene.rs. The pathfinder
Scene is external to the core; its push_paint is modelled as appending to a
paint list and handing back the index as the PaintId, which is all the
wrapper observes.
-/

/-- A paint, identified by the color it was created from
(Paint::from_color in src/render/scene.rs). -/
structure Paint where
  color : RGBA
  deriving DecidableEq, Repr

/-- The SceneWrapper state of src/render/scene.rs lines 23-41: the scene's
paint store, the color stack, and the active PaintId. The Vec color_stack is
embedded as a list whose head is the top. -/
structure SceneWrapper where
  paints : List Paint
  color_stack : List Nat
  paint : Nat
  deriving DecidableEq, Repr

/-- push_paint of the external scene, as observed by the wrapper: store the
paint, return its id. -/
def push_paint (w : SceneWrapper) (p : Paint) : Nat × SceneWrapper :=
  (w.paints.length, { w with paints := w.paints ++ [p] })

/-- begin_color, from src/render/scene.rs lines 83-88: push the active paint
id on the color stack and make a freshly pushed paint of the given color
active. -/
def begin_color (w : SceneWrapper) (c : RGBA) : SceneWrapper :=
  let w' := { w with color_stack := w.paint :: w.color_stack }
  let (id, w'') := push_paint w' ⟨c⟩
  { w'' with paint := id }

/-- end_color, from src/render/scene.rs lines 89-91: pop the color stack and
make the popped id active; the source unwraps the pop, so an empty stack is a
panic, embedded as none. -/
def end_color (w : SceneWrapper) : Option SceneWrapper :=
  match w.color_stack with
  | [] => none
  | p :: rest => some { w with paint := p, color_stack := rest }

/-!
Concrete instantiations of the abstract parse-engine parameters, used by the
witness and counterexample theorems to evaluate the handlers on explicit
inputs.
-/

/-- A concrete required-argument primitive over a Nat counter state: every
call returns a one-symbol argument and advances the counter. -/
def toy_required_argument (n : Nat) : Except ParseError (List ParseNode × Nat) :=
  Except.ok ([ParseNode.Symbol ⟨'a', AtomType.Alpha⟩], n + 1)

/-- A second concrete required-argument primitive, returning a different
symbol, so that the two successive reads of a fraction are distinguishable. -/
def toy_required_argument_b (n : Nat) : Except ParseError (List ParseNode × Nat) :=
  if n = 0 then Except.ok ([ParseNode.Symbol ⟨'a', AtomType.Alpha⟩], 1)
  else Except.ok ([ParseNode.Symbol ⟨'b', AtomType.Alpha⟩], n + 1)

/-- A concrete next-symbol primitive resolving to a fixed symbol. -/
def toy_symbol (sym : Symbol) (n : Nat) : Except ParseError (Symbol × Nat) :=
  Except.ok (sym, n + 1)

/-- Pushing elements one by one onto an accumulator, as the text_operator Vec
loop does, builds the map of the pushed elements. -/
theorem foldl_push_eq_map {α β : Type} (f : α → β) (l : List α) (acc : List β) :
    l.foldl (fun acc c => acc ++ [f c]) acc = acc ++ l.map f := by
  induction l generalizing acc with
  | nil => simp
  | cons c cs ih => simp [List.foldl_cons, ih]

/-- C1: the fraction-family commands. The frac command looks up to a Fraction
command with no delimiters, default bar thickness and no style change; the
binom, tbinom and dbinom variants fix a parenthesis Open left delimiter, a
parenthesis Close right delimiter and zero (None) bar thickness, with tbinom
and dbinom forcing Text and Display style. The handler reads the numerator
first and the denominator second as two required arguments and yields exactly
one GenFraction node carrying the command's literal parameters. -/
theorem fraction_family_shape {σ : Type}
    (required_argument : σ → Except ParseError (List ParseNode × σ))
    (s s1 s2 : σ) (num den : List ParseNode)
    (h1 : required_argument s = Except.ok (num, s1))
    (h2 : required_argument s1 = Except.ok (den, s2)) :
    get_command "frac"
      = some (Command.Fraction none none BarThickness.Default MathStyle.NoChange)
    ∧ fraction required_argument none none BarThickness.Default MathStyle.NoChange s
      = Except.ok (ParseNode.GenFraction none none BarThickness.Default
          num den MathStyle.NoChange, s2)
    ∧ get_command "binom"
      = some (Command.Fraction (some ⟨'(', AtomType.Open⟩) (some ⟨')', AtomType.Close⟩)
          BarThickness.None MathStyle.NoChange)
    ∧ get_command "tbinom"
      = some (Command.Fraction (some ⟨'(', AtomType.Open⟩) (some ⟨')', AtomType.Close⟩)
          BarThickness.None MathStyle.Text)
    ∧ get_command "dbinom"
      = some (Command.Fraction (some ⟨'(', AtomType.Open⟩) (some ⟨')', AtomType.Close⟩)
          BarThickness.None MathStyle.Display)
    ∧ (∀ (l r : Option Symbol) (bar : BarThickness) (st : MathStyle),
        fraction required_argument l r bar st s
          = Except.ok (ParseNode.GenFraction l r bar num den st, s2)) := by
  refine ⟨rfl, ?_, rfl, rfl, rfl, fun l r bar st => ?_⟩ <;>
    simp [fraction, h1, h2, Except.bind]

/-- C1 witness: evaluating the fraction handler on a concrete
required-argument primitive that yields the atom a first and the atom b
second produces the GenFraction node with numerator a and denominator b. -/
theorem fraction_family_shape_witness :
    toy_required_argument_b 0
      = Except.ok ([ParseNode.Symbol ⟨'a', AtomType.Alpha⟩], 1)
    ∧ toy_required_argument_b 1
      = Except.ok ([ParseNode.Symbol ⟨'b', AtomType.Alpha⟩], 2)
    ∧ fraction toy_required_argument_b none none BarThickness.Default MathStyle.NoChange 0
      = Except.ok (ParseNode.GenFraction none none BarThickness.Default
          [ParseNode.Symbol ⟨'a', AtomType.Alpha⟩]
          [ParseNode.Symbol ⟨'b', AtomType.Alpha⟩] MathStyle.NoChange, 2) :=
  ⟨rfl, rfl,
    (fraction_family_shape toy_required_argument_b 0 1 2
      [ParseNode.Symbol ⟨'a', AtomType.Alpha⟩]
      [ParseNode.Symbol ⟨'b', AtomType.Alpha⟩] rfl rfl).2.1⟩

/-- C2 counterexample: the requested size class is not carried forward on the
resulting ParseNode. With the same resolved symbol, the bigl-style size class
1 and the Biggl-style size class 4 produce identical parse results, so no
later stage can recover the size class from the node. -/
theorem delimiter_size_ignores_size_cx :
    delimiter_size (toy_symbol ⟨'(', AtomType.Open⟩) 1 AtomType.Open 0
      = delimiter_size (toy_symbol ⟨'(', AtomType.Open⟩) 4 AtomType.Open 0
    ∧ delimiter_size (toy_symbol ⟨'(', AtomType.Open⟩) 1 AtomType.Open 0
      = Except.ok (ParseNode.Symbol ⟨'(', AtomType.Open⟩, 1) :=
  ⟨rfl, rfl⟩

/-- C2 amended: every DelimiterSize command reads exactly one required symbol
and, on success, returns that symbol unchanged as a Symbol node, never
altering its spacing classification; the requested size class is ignored by
the handler — the result is the same for any two size classes — rather than
being carried on the ParseNode. -/
theorem delimiter_size_reads_one_symbol {σ : Type}
    (next_symbol : σ → Except ParseError (Symbol × σ)) (s s' : σ) (sym : Symbol)
    (size size' : Nat) (atom_type : AtomType)
    (h : next_symbol s = Except.ok (sym, s')) :
    delimiter_size next_symbol size atom_type s
      = delimiter_size next_symbol size' atom_type s
    ∧ (sym.atom_type = atom_type →
        delimiter_size next_symbol size atom_type s
          = Except.ok (ParseNode.Symbol sym, s')) := by
  refine ⟨rfl, fun hat => ?_⟩
  simp [delimiter_size, expect_type, h, hat, Except.bind]

/-- C2 amended witness: a concrete Open-class symbol parsed by the size class
2 Bigl command yields that same symbol as a Symbol node, and identically for
size class 3. -/
theorem delimiter_size_reads_one_symbol_witness :
    delimiter_size (toy_symbol ⟨'[', AtomType.Open⟩) 2 AtomType.Open 0
      = delimiter_size (toy_symbol ⟨'[', AtomType.Open⟩) 3 AtomType.Open 0
    ∧ delimiter_size (toy_symbol ⟨'[', AtomType.Open⟩) 2 AtomType.Open 0
      = Except.ok (ParseNode.Symbol ⟨'[', AtomType.Open⟩, 1) :=
  ⟨(delimiter_size_reads_one_symbol (toy_symbol ⟨'[', AtomType.Open⟩) 0 1
      ⟨'[', AtomType.Open⟩ 2 3 AtomType.Open rfl).1,
   (delimiter_size_reads_one_symbol (toy_symbol ⟨'[', AtomType.Open⟩) 0 1
      ⟨'[', AtomType.Open⟩ 2 3 AtomType.Open rfl).2 rfl⟩

/-- C3 counterexample: a Stack node produced by substack can carry an empty
sequence of rows. On the empty group, the loop records the single empty row
of the empty expression and the trailing-empty-row drop then removes it,
leaving no rows at all, against the claimed non-emptiness. -/
theorem substack_empty_group_cx :
    substack AtomType.Inner [Token.Symbol '{', Token.Symbol '}']
      = Except.ok (ParseNode.Stack AtomType.Inner [], []) :=
  rfl

/-- C3 amended: substack drops exactly one trailing empty row, never more,
and the rows can only be empty when the whole group was empty. The group
a-sep-b-sep parses to exactly the two rows a and b; the group holding a lone
separator parses to exactly one surviving empty row, showing the drop is not
repeated; and on any row list the cleanup removes exactly one trailing empty
row and leaves a list with a non-empty last row untouched. -/
theorem substack_trailing_row_drop :
    substack AtomType.Inner
      [Token.Symbol '{', Token.Symbol 'a', Token.Command "\\", Token.Symbol 'b',
       Token.Command "\\", Token.Symbol '}']
      = Except.ok (ParseNode.Stack AtomType.Inner
          [[ParseNode.Symbol ⟨'a', AtomType.Alpha⟩],
           [ParseNode.Symbol ⟨'b', AtomType.Alpha⟩]], [])
    ∧ substack AtomType.Inner
        [Token.Symbol '{', Token.Command "\\", Token.Symbol '}']
      = Except.ok (ParseNode.Stack AtomType.Inner [[]], [])
    ∧ (∀ lines : List (List ParseNode),
        drop_trailing_empty_row (lines ++ [[], []]) = lines ++ [[]])
    ∧ (∀ (lines : List (List ParseNode)) (n : ParseNode) (row : List ParseNode),
        drop_trailing_empty_row (lines ++ [n :: row]) = lines ++ [n :: row]) := by
  refine ⟨rfl, rfl, fun lines => ?_, fun lines n row => ?_⟩
  · have h : lines ++ [[], []] = (lines ++ [([] : List ParseNode)]) ++ [[]] := by simp
    rw [h]
    simp [drop_trailing_empty_row, List.getLast?_concat, List.dropLast_concat]
  · simp [drop_trailing_empty_row, List.getLast?_concat, List.dropLast_concat]

/-- C4: every TextOperator command with word w and limits flag b ignores the
lexer state and returns exactly one AtomChange node whose forced AtomType is
Operator b and whose inner list holds, in order, one Kerning node of exactly
3/18 em for each comma separator of w and one Ordinal Symbol for every other
character of w, its codepoint styled with the upright Roman family and no
weight. -/
theorem text_operator_shape {σ : Type} (style_symbol : Char → Style → Char)
    (name text : String) (limits : Bool) (s : σ)
    (h : get_command name = some (Command.TextOperator text limits)) :
    text_operator style_symbol text limits s
      = Except.ok (ParseNode.AtomChange (AtomType.Operator limits)
          (text.toList.map (fun c =>
            if c = ',' then ParseNode.Kerning (Unit.Em (3/18))
            else ParseNode.Symbol
              ⟨style_symbol c ⟨Family.Roman, Weight.None⟩, AtomType.Ordinal⟩)), s) := by
  simp [text_operator, foldl_push_eq_map, text_operator_step, SMALL_SKIP,
    Style.with_family, Style.with_weight]

/-- C4 witness: the limsup command is the TextOperator on the word lim,sup
with limits, and its handler output on a concrete styling function is the
AtomChange wrapping l i m, a 3/18 em kerning, then s u p, with the lexer
state untouched. -/
theorem text_operator_shape_witness :
    get_command "limsup" = some (Command.TextOperator "lim,sup" true)
    ∧ text_operator (fun c _ => c) "lim,sup" true (0 : Nat)
      = Except.ok (ParseNode.AtomChange (AtomType.Operator true)
          [ParseNode.Symbol ⟨'l', AtomType.Ordinal⟩,
           ParseNode.Symbol ⟨'i', AtomType.Ordinal⟩,
           ParseNode.Symbol ⟨'m', AtomType.Ordinal⟩,
           ParseNode.Kerning (Unit.Em (3/18)),
           ParseNode.Symbol ⟨'s', AtomType.Ordinal⟩,
           ParseNode.Symbol ⟨'u', AtomType.Ordinal⟩,
           ParseNode.Symbol ⟨'p', AtomType.Ordinal⟩], 0) := by
  refine ⟨rfl, ?_⟩
  rw [text_operator_shape (fun c _ => c) "limsup" "lim,sup" true (0 : Nat) rfl]
  rfl

/-- C5: a DelimiterSize command fails with the atom-class-mismatch error when
the one required symbol resolves to an AtomType different from the requested
class, and succeeds returning that symbol when the class matches. -/
theorem delimiter_size_class_mismatch {σ : Type}
    (next_symbol : σ → Except ParseError (Symbol × σ)) (s s' : σ) (sym : Symbol)
    (size : Nat) (atom_type : AtomType)
    (h : next_symbol s = Except.ok (sym, s')) :
    (sym.atom_type ≠ atom_type →
      delimiter_size next_symbol size atom_type s
        = Except.error (ParseError.ExpectedAtomType atom_type sym.atom_type))
    ∧ (sym.atom_type = atom_type →
      delimiter_size next_symbol size atom_type s
        = Except.ok (ParseNode.Symbol sym, s')) := by
  constructor <;> intro hat <;>
    simp [delimiter_size, expect_type, h, hat, Except.bind]

/-- C5 witness: the bigl command (size class 1, requested class Open) given a
Relation-class equals sign fails with the atom-class mismatch, and given an
Open-class parenthesis succeeds with that symbol. -/
theorem delimiter_size_class_mismatch_witness :
    delimiter_size (toy_symbol ⟨'=', AtomType.Relation⟩) 1 AtomType.Open 0
      = Except.error (ParseError.ExpectedAtomType AtomType.Open AtomType.Relation)
    ∧ delimiter_size (toy_symbol ⟨'(', AtomType.Open⟩) 1 AtomType.Open 5
      = Except.ok (ParseNode.Symbol ⟨'(', AtomType.Open⟩, 6) :=
  ⟨(delimiter_size_class_mismatch (toy_symbol ⟨'=', AtomType.Relation⟩) 0 1
      ⟨'=', AtomType.Relation⟩ 1 AtomType.Open rfl).1 (by decide),
   (delimiter_size_class_mismatch (toy_symbol ⟨'(', AtomType.Open⟩) 5 6
      ⟨'(', AtomType.Open⟩ 1 AtomType.Open rfl).2 rfl⟩

/-- C6 counterexample: when the input at the first required-dimension site of
rule does not begin with a number, the handler does not fail with a
structural parse error — it panics through Option::expect. -/
theorem rule_missing_number_cx :
    rule consume_ws lex_dimension ("x 2em".toList)
      = Except.error (RunError.Crash "Unable to parse dimension for Rule.")
    ∧ ∀ e : ParseError,
        rule consume_ws lex_dimension ("x 2em".toList) ≠ Except.error (RunError.Parse e) := by
  refine ⟨rfl, fun e h => ?_⟩
  rw [show rule consume_ws lex_dimension ("x 2em".toList)
      = Except.error (RunError.Crash "Unable to parse dimension for Rule.") from rfl] at h
  simp at h

/-- C6 amended: in the rule handler, a dimension-lexing error at either
required-dimension site (a number with an unrecognized or missing unit
suffix) propagates as that structural error with no partial result, while a
site whose input does not begin with a number (the lexer's no-match case)
makes the handler panic rather than return a parse error. -/
theorem rule_dimension_errors {σ : Type} (consume_whitespace : σ → σ)
    (dimension : σ → Except ParseError (Option Unit × σ)) (s : σ) :
    (∀ e : ParseError, dimension (consume_whitespace s) = Except.error e →
      rule consume_whitespace dimension s = Except.error (RunError.Parse e))
    ∧ (∀ s1 : σ, dimension (consume_whitespace s) = Except.ok (none, s1) →
      rule consume_whitespace dimension s
        = Except.error (RunError.Crash "Unable to parse dimension for Rule."))
    ∧ (∀ (width : Unit) (s1 : σ) (e : ParseError),
      dimension (consume_whitespace s) = Except.ok (some width, s1) →
      dimension (consume_whitespace s1) = Except.error e →
      rule consume_whitespace dimension s = Except.error (RunError.Parse e))
    ∧ (∀ (width : Unit) (s1 s2 : σ),
      dimension (consume_whitespace s) = Except.ok (some width, s1) →
      dimension (consume_whitespace s1) = Except.ok (none, s2) →
      rule consume_whitespace dimension s
        = Except.error (RunError.Crash "Unable to parse dimension for Rule.")) := by
  refine ⟨fun e h1 => ?_, fun s1 h1 => ?_, fun width s1 e h1 h2 => ?_,
    fun width s1 s2 h1 h2 => ?_⟩
  · simp [rule, h1]
  · simp [rule, h1]
  · simp [rule, h1, h2]
  · simp [rule, h1, h2]

/-- C6 amended witness: on concrete character input, a number with an
unrecognized suffix at the first site propagates the structural lexer error,
a number with an unrecognized suffix at the second site does too, and inputs
not beginning with a number at the first or second site panic. -/
theorem rule_dimension_errors_witness :
    rule consume_ws lex_dimension ("1zz".toList)
      = Except.error (RunError.Parse ParseError.UnrecognizedDimension)
    ∧ rule consume_ws lex_dimension ("2em 3zz".toList)
      = Except.error (RunError.Parse ParseError.UnrecognizedDimension)
    ∧ rule consume_ws lex_dimension ("abc".toList)
      = Except.error (RunError.Crash "Unable to parse dimension for Rule.")
    ∧ rule consume_ws lex_dimension ("2em x".toList)
      = Except.error (RunError.Crash "Unable to parse dimension for Rule.") :=
  ⟨(rule_dimension_errors consume_ws lex_dimension ("1zz".toList)).1
      ParseError.UnrecognizedDimension rfl,
   (rule_dimension_errors consume_ws lex_dimension ("2em 3zz".toList)).2.2.1
      (Unit.Em 2) (" 3zz".toList) ParseError.UnrecognizedDimension rfl rfl,
   (rule_dimension_errors consume_ws lex_dimension ("abc".toList)).2.1
      ("abc".toList) rfl,
   (rule_dimension_errors consume_ws lex_dimension ("2em x".toList)).2.2.2
      (Unit.Em 2) (" x".toList) ("x".toList) rfl rfl⟩

/-- C7: get_command is a pure, case-sensitive, exact-match lookup — it
returns none exactly for the strings outside its fixed table of names, ker
and Ker map to distinct commands, and hom and Hom map to distinct commands. -/
theorem get_command_table_charact :
    (∀ name : String, get_command name = none ↔ name ∉ commandNames)
    ∧ get_command "ker" = some (Command.TextOperator "ker" false)
    ∧ get_command "Ker" = some (Command.TextOperator "Ker" false)
    ∧ get_command "hom" = some (Command.TextOperator "hom" false)
    ∧ get_command "Hom" = some (Command.TextOperator "Hom" false)
    ∧ get_command "ker" ≠ get_command "Ker"
    ∧ get_command "hom" ≠ get_command "Hom" := by
  refine ⟨?_, rfl, rfl, rfl, rfl, by decide, by decide⟩
  intro name
  unfold get_command
  split
  all_goals simp_all [commandNames]

/-- C7 witness: an unknown name yields no match, not an error. -/
theorem get_command_table_charact_witness :
    get_command "notacommand" = none :=
  (get_command_table_charact.1 "notacommand").mpr (by decide)

/-- C8: the spacing-literal commands carry exact kerning constants — quad is
1 em, comma is 3/18 em, semicolon is 5/18 em, bang is minus 3/18 em, colon is
4/18 em, the space command is 1/4 em, qquad is 2 em — and the kerning handler
consumes no input, returning the Kerning node with the literal unit and the
state unchanged. -/
theorem kerning_constants :
    get_command "quad" = some (Command.Kerning (Unit.Em 1))
    ∧ get_command "," = some (Command.Kerning (Unit.Em (3/18)))
    ∧ get_command ";" = some (Command.Kerning (Unit.Em (5/18)))
    ∧ get_command "!" = some (Command.Kerning (Unit.Em (-3/18)))
    ∧ get_command ":" = some (Command.Kerning (Unit.Em (4/18)))
    ∧ get_command " " = some (Command.Kerning (Unit.Em (1/4)))
    ∧ get_command "qquad" = some (Command.Kerning (Unit.Em 2))
    ∧ (∀ (σ : Type) (s : σ) (u : Unit), kerning u s = Except.ok (ParseNode.Kerning u, s)) :=
  ⟨rfl, rfl, rfl, rfl, rfl, rfl, rfl, fun _ _ _ => rfl⟩

/-- C9: on the scene backend the color markers obey a stack discipline — for
every wrapper state, begin_color followed by the matching end_color succeeds
and restores the active paint and the color stack to their values before the
begin_color, while end_color with no unmatched prior begin_color (an empty
color stack) is the unwrap panic, a programming error rather than a handled
user-input error. -/
theorem color_stack_balance (w : SceneWrapper) (c : RGBA) :
    (∃ w' : SceneWrapper, end_color (begin_color w c) = some w'
      ∧ w'.paint = w.paint ∧ w'.color_stack = w.color_stack)
    ∧ (w.color_stack = [] → end_color w = none) := by
  constructor
  · refine ⟨⟨w.paints ++ [⟨c⟩], w.color_stack, w.paint⟩, ?_, rfl, rfl⟩
    simp [begin_color, end_color, push_paint]
  · intro h
    simp [end_color, h]

/-- C9 witness: on a concrete wrapper holding one black paint, a red
begin_color followed by end_color restores paint id 0 and the empty stack,
and end_color on the untouched wrapper is the panic. -/
theorem color_stack_balance_witness :
    (∃ w' : SceneWrapper,
      end_color (begin_color ⟨[⟨⟨0, 0, 0, 0xff⟩⟩], [], 0⟩ ⟨0xff, 0, 0, 0xff⟩) = some w'
      ∧ w'.paint = 0 ∧ w'.color_stack = [])
    ∧ end_color ⟨[⟨⟨0, 0, 0, 0xff⟩⟩], [], 0⟩ = none :=
  ⟨(color_stack_balance ⟨[⟨⟨0, 0, 0, 0xff⟩⟩], [], 0⟩ ⟨0xff, 0, 0, 0xff⟩).1,
   (color_stack_balance ⟨[⟨⟨0, 0, 0, 0xff⟩⟩], [], 0⟩ ⟨0xff, 0, 0, 0xff⟩).2 rfl⟩

/-- C10: the phantom command is the color-literal command with the fully
transparent color, alpha 0: its handler wraps the one normally parsed
required argument in exactly one Color node carrying RGBA 0 0 0 0. -/
theorem phantom_transparent_color {σ : Type}
    (required_argument : σ → Except ParseError (List ParseNode × σ))
    (s s' : σ) (inner : List ParseNode)
    (h : required_argument s = Except.ok (inner, s')) :
    get_command "phantom" = some (Command.ColorLit ⟨0, 0, 0, 0⟩)
    ∧ color_lit required_argument ⟨0, 0, 0, 0⟩ s
      = Except.ok (ParseNode.Color ⟨0, 0, 0, 0⟩ inner, s')
    ∧ (⟨0, 0, 0, 0⟩ : RGBA).a = 0 := by
  refine ⟨rfl, ?_, rfl⟩
  simp [color_lit, h, Except.bind]

/-- C10 witness: on a concrete required-argument primitive the phantom color
literal wraps the parsed atom in a Color node with alpha 0. -/
theorem phantom_transparent_color_witness :
    color_lit toy_required_argument ⟨0, 0, 0, 0⟩ 0
      = Except.ok (ParseNode.Color ⟨0, 0, 0, 0⟩
          [ParseNode.Symbol ⟨'a', AtomType.Alpha⟩], 1) :=
  (phantom_transparent_color toy_required_argument 0 1
    [ParseNode.Symbol ⟨'a', AtomType.Alpha⟩] rfl).2.1

end ReX
